import Mathlib

/-!
Verification development for the micromagneticdata package: a shallow
embedding of the drive abstraction and combination layer (drive discovery,
backend dispatch, tables, snapshot access, callback chains, concatenation
of drives, the aggregate metadata listing and the xarray export), together
with theorems settling the specification claims.

External collaborators (the field-file reader, the table parser, the
xarray library) are modelled by their observable behaviour at the call
sites of this package, as permitted by the specification, which declares
their internals out of scope.
-/

namespace Mmd

/-- Error kinds raised by the embedded code, mirroring the Python
exception classes that appear in the package. -/
inductive MdError where
  | typeError
  | valueError
  | ioError
  | indexError
  | fileNotFound
  | jsonDecode
  | attributeError
deriving Repr, DecidableEq

/-- A decoded magnetisation-field snapshot.  The spatial/component array
content produced by the external field-file reader is abstracted to a
list of scalars; the package never inspects it other than passing it to
callbacks and stacking it in the xarray export. -/
structure Field where
  arr : List Int
deriving Repr, DecidableEq

/-- The parsed metadata record stored in a drive's info.json file
(data model: driver kind and the drive number at least). -/
structure Info where
  driver : String
  drive_number : Int
deriving Repr, DecidableEq

/-- A scalar time-series table as produced by the external table library:
the designated independent-variable column name, the column names and the
rows (row contents abstracted to lists of scalars). -/
structure Table where
  x : String
  columns : List String
  rows : List (List Int)
deriving Repr, DecidableEq

/-- Concatenation of two tables, modelling the external table library's
lshift operator as the specification describes its use here: it refuses
two tables whose independent variables differ (value error) and otherwise
produces the row-wise concatenation in order. -/
def Table.lshift (t1 t2 : Table) : Except MdError Table :=
  if t1.x = t2.x then
    .ok { x := t1.x, columns := t1.columns, rows := t1.rows ++ t2.rows }
  else
    .error .valueError

/-- The two concrete backend representations of a drive
(oommfdrive.py and mumax3drive.py). -/
inductive Backend where
  | oommf
  | mumax3
deriving Repr, DecidableEq

/-- The on-disk content of one numbered drive directory, as far as the
package observes it.

* `present`: whether the directory itself exists;
* `outFiles`: the sorted snapshot files inside the nested
  `<system-name>.out` sub-directory, or `none` if that sub-directory is
  absent (its presence is the mumax3 layout signature);
* `omfFiles`: the sorted loose `<system-name>*.omf` snapshot files in the
  drive directory (the OOMMF layout);
* `infoFile`: the metadata file: `none` when the file is missing,
  `some none` when it exists but cannot be parsed, `some (some i)` when
  it parses to the record `i`;
* `tableColumns`/`tableRows`: the parsed scalar table content;
* `m0File`: the path of the initial-magnetisation file;
* `decode`: the external field-file reader applied to a snapshot path of
  this directory (including the mesh normalisation the package performs
  before callbacks run). -/
structure DriveDir where
  present : Bool
  outFiles : Option (List String)
  omfFiles : List String
  infoFile : Option (Option Info)
  tableColumns : List String
  tableRows : List (List Int)
  m0File : String
  decode : String → Field

/-- Reading and parsing a drive directory's info.json file: a missing
file raises a file-not-found error, an unparsable one a JSON decode
error (drive.py, Drive.info). -/
def readInfoFile (dir : DriveDir) : Except MdError Info :=
  match dir.infoFile with
  | none => .error .fileNotFound
  | some none => .error .jsonDecode
  | some (some i) => .ok i

/-- A constructed drive object: the resolved backend, the resolved
independent-variable column, the data read (or to be read) from its
directory, the callback chain and the caching flag. -/
structure Drive where
  number : Nat
  backend : Backend
  x : String
  infoFile : Option (Option Info)
  tableColumns : List String
  tableRows : List (List Int)
  step_files : List String
  m0Path : String
  decode : String → Field
  callbacks : List (Field → Field)
  use_cache : Bool

/-- Drive.info: parse and return the metadata record of the drive's
directory; errors propagate to the caller. -/
def driveInfo (d : Drive) : Except MdError Info :=
  match d.infoFile with
  | none => .error .fileNotFound
  | some none => .error .jsonDecode
  | some (some i) => .ok i

/-- The automatic independent-variable selection of the OOMMF backend
(drive.py, the x setter): the driver kind recorded in the metadata picks
the column; an unrecognised driver kind leaves the variable unselected. -/
def oommfAutoX (driver : String) : Option String :=
  if driver = "TimeDriver" then some "t"
  else if driver = "MinDriver" then some "iteration"
  else if driver = "HysteresisDriver" then some "B_hysteresis"
  else none

/-- Resolution of the independent variable at construction.  A user
override must name an existing table column, otherwise a value error is
raised (both backends).  Without an override the mumax3 backend always
selects the time column t (mumax3drive.py ignores the driver kind),
while the OOMMF backend reads the metadata and maps the driver kind
through `oommfAutoX`; for an unrecognised kind the source leaves the
attribute unset so that every later use fails, which the embedding
surfaces as an attribute error here. -/
def resolveX (backend : Backend) (dir : DriveDir) (x : Option String) :
    Except MdError String :=
  match x with
  | some v =>
      if v ∈ dir.tableColumns then .ok v else .error .valueError
  | none =>
      match backend with
      | .mumax3 => .ok "t"
      | .oommf =>
          match readInfoFile dir with
          | .error e => .error e
          | .ok info =>
              match oommfAutoX info.driver with
              | some v => .ok v
              | none => .error .attributeError

/-- Modelled from the spec: construction of a Drive (the dispatching
constructor of the released drive.py, which is not under src/; only its
subclasses, callers and tests are).  A nonexistent drive directory is an
I/O error; the backend is selected once by checking for the presence of
the `<system-name>.out` sub-directory (present: mumax3; absent: OOMMF);
the mumax3 variant re-checks that this output directory exists
(mumax3drive.py); the snapshot-file list follows the chosen layout and
the independent variable is resolved as in `resolveX`. -/
def constructDrive (number : Nat) (dir : DriveDir) (x : Option String) :
    Except MdError Drive :=
  if !dir.present then .error .ioError
  else
  let backend := if dir.outFiles.isSome then Backend.mumax3 else Backend.oommf
  let stepFs? : Except MdError (List String) :=
    match backend, dir.outFiles with
    | .mumax3, some fs => .ok fs
    | .mumax3, none => .error .ioError
    | .oommf, _ => .ok dir.omfFiles
  match stepFs?, resolveX backend dir x with
  | .error e, _ => .error e
  | .ok _, .error e => .error e
  | .ok stepFs, .ok xv =>
      .ok { number := number, backend := backend, x := xv,
            infoFile := dir.infoFile, tableColumns := dir.tableColumns,
            tableRows := dir.tableRows, step_files := stepFs,
            m0Path := dir.m0File, decode := dir.decode,
            callbacks := [], use_cache := false }

/-- Drive.table: the scalar table with the drive's resolved independent
variable selected. -/
def driveTable (d : Drive) : Table :=
  { x := d.x, columns := d.tableColumns, rows := d.tableRows }

/-- AbstractDrive.n: the number of steps, defined as the number of rows
of the drive table. -/
def driveN (d : Drive) : Nat :=
  d.tableRows.length

/-- AbstractDrive._apply_callbacks: apply the registered callbacks to a
field in registration order, each receiving the previous one's output. -/
def applyCallbacks (cs : List (Field → Field)) (f : Field) : Field :=
  cs.foldl (fun acc c => c acc) f

/-- Modelled from the spec: register_callback of the released drive.py
(its concrete implementation is not under src/; only the abstract
declaration in abstract_drive.py is): it returns a new drive instance
with the callback appended to the (immutable) callback list. -/
def registerCallback (d : Drive) (f : Field → Field) : Drive :=
  { d with callbacks := d.callbacks ++ [f] }

/-- AbstractDrive.__getitem__ with an integer index: decode the selected
snapshot file and apply the registered callbacks in order; an
out-of-range index is an index error. -/
def driveGetItemInt (d : Drive) (i : Nat) : Except MdError Field :=
  match d.step_files.get? i with
  | none => .error .indexError
  | some fn => .ok (applyCallbacks d.callbacks (d.decode fn))

/-- AbstractDrive.__iter__: the snapshot sequence produced by iterating
the drive.  The source iterates over range(len(self._step_files)) and
yields self[i], explicitly driven by the snapshot-file count rather than
the table row count; purity of the embedding models restartability. -/
def driveIterate (d : Drive) : List (Except MdError Field) :=
  (List.range d.step_files.length).map (driveGetItemInt d)

/-! ### Python slice semantics

The slice access of a drive delegates to Python's slicing of the
snapshot-file list and of the table rows, so the corresponding CPython
arithmetic (slice.indices and the length of a range) is embedded here. -/

/-- The length of the Python range(start, stop, step) for a nonzero
step (zero gives the empty range here; the drive code never produces a
zero step because Python rejects it when the slice is formed). -/
def rangeLen (start stop step : Int) : Nat :=
  if 0 < step then
    ((stop - start).toNat + (step.toNat - 1)) / step.toNat
  else if step < 0 then
    ((start - stop).toNat + ((-step).toNat - 1)) / (-step).toNat
  else 0

/-- The Python range(start, stop, step) as the arithmetic progression of
length `rangeLen`. -/
def rangeList (start stop step : Int) : List Int :=
  (List.range (rangeLen start stop step)).map
    (fun k : Nat => start + step * (k : Int))

/-- CPython's slice.indices(n): clamp the optional start/stop/step of a
slice to a sequence of length n, yielding the (start, stop, step) of the
equivalent range. -/
def sliceIndices (a b c : Option Int) (n : Nat) : Int × Int × Int :=
  let step := c.getD 1
  let lower : Int := if step < 0 then -1 else 0
  let upper : Int := if step < 0 then (n : Int) - 1 else (n : Int)
  let start :=
    match a with
    | none => if step < 0 then upper else lower
    | some av => if av < 0 then max (av + n) lower else min av upper
  let stop :=
    match b with
    | none => if step < 0 then lower else upper
    | some bv => if bv < 0 then max (bv + n) lower else min bv upper
  (start, stop, step)

/-- The number of items selected by the slice a:b:c from a sequence of
length n; this is exactly the claim's expression
len(range(slice(a, b, c).indices(n))). -/
def pySliceLen (a b c : Option Int) (n : Nat) : Nat :=
  let (s, e, st) := sliceIndices a b c n
  rangeLen s e st

/-- Python list slicing xs[a:b:c]: pick the elements at the indices of
the range determined by slice.indices. -/
def listSlice {α : Type} (xs : List α) (a b c : Option Int) : List α :=
  let (s, e, st) := sliceIndices a b c xs.length
  (rangeList s e st).filterMap (fun i => xs.get? i.toNat)

/-- Modelled from the spec: the slice branch of Drive.__getitem__ of the
released drive.py (not under src/; only the integer branch in
abstract_drive.py and the tests are): slicing returns a new drive
instance restricted to the selected snapshot subset and the
correspondingly row-sliced table, with caching forced on for the derived
view. -/
def sliceDrive (d : Drive) (a b c : Option Int) : Drive :=
  { d with
    step_files := listSlice d.step_files a b c
    tableRows := listSlice d.tableRows a b c
    use_cache := true }

/-! ### Combined drives -/

/-- CombinedDrive: an ordered collection of member drives together with
the concatenated table and the shared independent variable. -/
structure CombinedDrive where
  drives : List Drive
  tbl : Table
  x : String

/-- Reduction of the member tables by the table lshift operator, as
CombinedDrive.__init__ does with functools.reduce. -/
def tablesLshift : List Table → Except MdError Table
  | [] => .error .typeError
  | t :: ts => ts.foldlM Table.lshift t

/-- CombinedDrive.__init__: requires at least two member drives (value
error otherwise; the isinstance type check of the source is enforced by
typing here), concatenates the member tables by reduction with the table
lshift operator (which raises a value error when independent variables
differ) and records the resulting table's independent variable. -/
def combinedDriveInit (drives : List Drive) : Except MdError CombinedDrive :=
  if drives.length < 2 then .error .valueError
  else
    match tablesLshift (drives.map driveTable) with
    | .error e => .error e
    | .ok tbl => .ok { drives := drives, tbl := tbl, x := tbl.x }

/-- A possible right operand of the lshift concatenation operator, as a
Python object: a drive, a combined drive, or something else entirely
(exemplified by an integer or a string). -/
inductive PyObj where
  | drive (d : Drive)
  | combined (c : CombinedDrive)
  | intObj (k : Int)
  | strObj (s : String)

/-- Modelled from the spec: Drive.__lshift__ of the released drive.py
(not under src/; the abstract declaration, the CombinedDrive homologue
and the tests are): a drive concatenated with a drive forms a combined
drive of the two, with an existing combined drive it prepends itself to
that drive's members, and any other operand type is a type error. -/
def driveLshift (d : Drive) (other : PyObj) : Except MdError CombinedDrive :=
  match other with
  | .drive d2 => combinedDriveInit [d, d2]
  | .combined c => combinedDriveInit (d :: c.drives)
  | _ => .error .typeError

/-- CombinedDrive.__lshift__ (combined_drive.py): appending a drive
extends the member list, appending another combined drive flattens its
members in, and any other operand type is a type error. -/
def combinedLshift (c : CombinedDrive) (other : PyObj) :
    Except MdError CombinedDrive :=
  match other with
  | .drive d => combinedDriveInit (c.drives ++ [d])
  | .combined c2 => combinedDriveInit (c.drives ++ c2.drives)
  | _ => .error .typeError

/-- AbstractDrive.n for a combined drive: the number of rows of its
(concatenated) table. -/
def combinedN (c : CombinedDrive) : Nat :=
  c.tbl.rows.length

/-- CombinedDrive._step_files: the concatenation of the members'
snapshot-file lists in order. -/
def combinedStepFiles (c : CombinedDrive) : List String :=
  (c.drives.map Drive.step_files).flatten

/-- CombinedDrive._m0_path: the initial-magnetisation path of the first
member drive (an index error on an empty member list, which construction
rules out). -/
def combinedM0Path (c : CombinedDrive) : Except MdError String :=
  match c.drives with
  | [] => .error .indexError
  | d :: _ => .ok d.m0Path

/-- The driver entry of CombinedDrive.info: the driver kind of the first
member drive's metadata. -/
def combinedInfoDriver (c : CombinedDrive) : Except MdError String :=
  match c.drives with
  | [] => .error .indexError
  | d :: _ => (driveInfo d).map Info.driver

/-- The drive_numbers entry of CombinedDrive.info: the drive numbers of
all members' metadata records. -/
def combinedInfoNumbers (c : CombinedDrive) : Except MdError (List Int) :=
  c.drives.mapM (fun d => (driveInfo d).map Info.drive_number)

/-! ### The run collection (data.py) -/

/-- The root directory of a run collection: whether it exists and the
numbered drive directories found under it. -/
structure DataRoot where
  present : Bool
  driveDirs : List DriveDir

/-- Data.__init__: a nonexistent root path fails at construction time
with an I/O error. -/
def constructData (root : DataRoot) : Except MdError DataRoot :=
  if root.present then .ok root else .error .ioError

/-- Data.n: the number of drive sub-directories found under the root. -/
def dataN (root : DataRoot) : Nat :=
  root.driveDirs.length

/-- Python's range(n)[item]: negative indices count from the end and an
index outside the valid range raises an index error.  Data.__getitem__
uses exactly this to turn the requested index into a drive number. -/
def rangeIndex (n : Nat) (item : Int) : Except MdError Nat :=
  let j := if item < 0 then item + n else item
  if 0 ≤ j ∧ j < n then .ok j.toNat else .error .indexError

/-- Data.__getitem__: resolve the (possibly negative) index through
range(n) and construct the drive with that number. -/
def dataGetItem (root : DataRoot) (item : Int) : Except MdError Drive :=
  match rangeIndex (dataN root) item with
  | .error e => .error e
  | .ok num =>
    match root.driveDirs.get? num with
    | some dir => constructDrive num dir none
    | none => .error .indexError

/-- One record of the aggregate metadata listing: the drive number and
the status of its info.json entry. -/
structure InfoRecord where
  drive_number : Int
  status : String
deriving Repr, DecidableEq

/-- One item of Data.info: construct the drive and load its info.json;
a file-not-found error is downgraded to a "missing" record and a JSON
decode error to a "corrupt" record, each carrying the loop index as the
drive number; a successful load is reported "available" with the
number read from the file; any other error propagates unchanged. -/
def dataInfoTry (i : Nat) (dir : DriveDir) : Except MdError Info :=
  match constructDrive i dir none with
  | .error e => .error e
  | .ok _ => readInfoFile dir

/-- One item of the listing with the downgrading applied (see
`dataInfoItem` proper below). -/
def dataInfoItem (i : Nat) (dir : DriveDir) : Except MdError InfoRecord :=
  match dataInfoTry i dir with
  | .ok info => .ok { drive_number := info.drive_number, status := "available" }
  | .error .fileNotFound => .ok { drive_number := i, status := "missing" }
  | .error .jsonDecode => .ok { drive_number := i, status := "corrupt" }
  | .error e => .error e

/-- Data.info: the aggregate metadata listing over all drives of the run
collection, in drive order. -/
def dataInfo (root : DataRoot) : Except MdError (List InfoRecord) :=
  root.driveDirs.enum.mapM (fun p => dataInfoItem p.1 p.2)

/-! ### The xarray export -/

/-- A multi-dimensional array view, as far as the package shapes it: the
(flattened) data, the dimension names in order, and the attached
attributes. -/
structure DataArray where
  data : List Int
  dims : List String
  attrs : List (String × String)
deriving Repr, DecidableEq

/-- The external field library's to_xarray on one snapshot: the field's
own array with its own spatial/component axes and no drive-level axis. -/
def fieldToXarray (f : Field) : DataArray :=
  { data := f.arr, dims := ["x", "y", "z", "vdims"], attrs := [] }

/-- xarray's assign_attrs: adds attributes, leaving data and dims
untouched. -/
def assignAttrs (da : DataArray) (a : List (String × String)) : DataArray :=
  { da with attrs := da.attrs ++ a }

/-- The drive metadata rendered as xarray attributes. -/
def infoAttrs (i : Info) : List (String × String) :=
  [("driver", i.driver), ("drive_number", toString i.drive_number)]

/-- AbstractDrive.to_xarray: with exactly one snapshot file the single
decoded snapshot's own array view is returned (no stacking and no extra
leading axis); otherwise all snapshots are decoded and stacked into one
array whose leading axis is the independent variable; in both cases the
drive metadata is attached as attributes.  Units and the extra
hysteresis coordinates of the source are not observed by any claim and
are abstracted away. -/
def driveToXarray (d : Drive) : Except MdError DataArray :=
  let base? : Except MdError DataArray :=
    if d.step_files.length = 1 then
      match driveGetItemInt d 0 with
      | .error e => .error e
      | .ok f => .ok (fieldToXarray f)
    else
      match (List.range d.step_files.length).mapM (driveGetItemInt d) with
      | .error e => .error e
      | .ok flds =>
          .ok { data := (flds.map Field.arr).flatten
                dims := d.x :: ["x", "y", "z", "vdims"]
                attrs := [] }
  match base?, driveInfo d with
  | .error e, _ => .error e
  | .ok _, .error e => .error e
  | .ok base, .ok info => .ok (assignAttrs base (infoAttrs info))

/-! ### Arithmetic facts about the slice embedding -/

/-- Core ceiling-division bound: an index below the ceiling of D / (t+1)
multiplied back by t+1 stays below D. -/
theorem mul_lt_of_lt_ceil (D t k : Nat) (hk : k < (D + t) / (t + 1)) :
    (t + 1) * k < D := by
  have h1 : (k + 1) * (t + 1) ≤ D + t :=
    (Nat.le_div_iff_mul_le (Nat.succ_pos t)).mp (Nat.succ_le_of_lt hk)
  nlinarith [h1]

/-- The third component of slice.indices is the (defaulted) step. -/
theorem sliceIndices_step (a b c : Option Int) (n : Nat) :
    (sliceIndices a b c n).2.2 = c.getD 1 := rfl

/-- For a positive step, slice.indices clamps the start to be
nonnegative and the stop to be at most n. -/
theorem sliceIndices_pos_bounds (a b c : Option Int) (n : Nat)
    (hst : 0 < c.getD 1) :
    0 ≤ (sliceIndices a b c n).1 ∧ (sliceIndices a b c n).2.1 ≤ (n : Int) := by
  have h1 : ¬ (c.getD 1 < 0) := by omega
  cases a <;> cases b <;> simp only [sliceIndices, if_neg h1] <;> omega

/-- For a negative step, slice.indices clamps the start to be at most
n - 1 and the stop to be at least -1. -/
theorem sliceIndices_neg_bounds (a b c : Option Int) (n : Nat)
    (hst : c.getD 1 < 0) :
    (sliceIndices a b c n).1 ≤ (n : Int) - 1 ∧ -1 ≤ (sliceIndices a b c n).2.1 := by
  cases a <;> cases b <;> simp only [sliceIndices, if_pos hst] <;> omega

/-- Every element of the range produced with a positive step lies in
the interval [start, stop). -/
theorem rangeList_pos_bounds (s e st : Int) (hst : 0 < st) (k : Nat)
    (hk : k < rangeLen s e st) : s ≤ s + st * k ∧ s + st * k < e := by
  obtain ⟨t, hTt⟩ : ∃ t, st.toNat = t + 1 := ⟨st.toNat - 1, by omega⟩
  have hk2 : k < ((e - s).toNat + t) / (t + 1) := by
    have : rangeLen s e st = ((e - s).toNat + t) / (t + 1) := by
      simp only [rangeLen, if_pos hst, hTt, Nat.add_sub_cancel]
    omega
  have hmul : (t + 1) * k < (e - s).toNat := mul_lt_of_lt_ceil _ _ _ hk2
  have key : st * (k : Int) = (((t + 1) * k : Nat) : Int) := by
    have hst' : st = ((t + 1 : Nat) : Int) := by omega
    rw [hst']
    push_cast
    ring
  rw [key]
  omega

/-- Every element of the range produced with a negative step lies in
the interval (stop, start]. -/
theorem rangeList_neg_bounds (s e st : Int) (hst : st < 0) (k : Nat)
    (hk : k < rangeLen s e st) : e < s + st * k ∧ s + st * k ≤ s := by
  obtain ⟨t, hTt⟩ : ∃ t, (-st).toNat = t + 1 := ⟨(-st).toNat - 1, by omega⟩
  have hk2 : k < ((s - e).toNat + t) / (t + 1) := by
    have hns : ¬ (0 < st) := by omega
    have : rangeLen s e st = ((s - e).toNat + t) / (t + 1) := by
      simp only [rangeLen, if_neg hns, if_pos hst, hTt, Nat.add_sub_cancel]
    omega
  have hmul : (t + 1) * k < (s - e).toNat := mul_lt_of_lt_ceil _ _ _ hk2
  have key : st * (k : Int) = -(((t + 1) * k : Nat) : Int) := by
    have hst' : st = -((t + 1 : Nat) : Int) := by omega
    rw [hst']
    push_cast
    ring
  rw [key]
  omega

/-- Every index generated by slicing a sequence of length n with a
nonzero step is a valid index of that sequence. -/
theorem mem_rangeList_of_sliceIndices (a b c : Option Int) (n : Nat)
    (hc : c.getD 1 ≠ 0) (s e st : Int)
    (hsi : sliceIndices a b c n = (s, e, st)) :
    ∀ i ∈ rangeList s e st, 0 ≤ i ∧ i < (n : Int) := by
  intro i hi
  simp only [rangeList, List.mem_map, List.mem_range] at hi
  obtain ⟨k, hk, rfl⟩ := hi
  have hstv : st = c.getD 1 := by
    have := sliceIndices_step a b c n
    rw [hsi] at this
    exact this
  rcases lt_trichotomy st 0 with h | h | h
  · have hb := sliceIndices_neg_bounds a b c n (hstv ▸ h)
    rw [hsi] at hb
    dsimp only at hb
    have := rangeList_neg_bounds s e st h k hk
    omega
  · exact absurd (hstv ▸ h) hc
  · have hb := sliceIndices_pos_bounds a b c n (hstv ▸ h)
    rw [hsi] at hb
    dsimp only at hb
    have := rangeList_pos_bounds s e st h k hk
    omega

/-- Picking elements at a list of valid indices loses nothing: the
filterMap over get? has the full length. -/
theorem length_filterMap_get {α : Type} (xs : List α) (l : List Int)
    (h : ∀ i ∈ l, 0 ≤ i ∧ i < (xs.length : Int)) :
    (l.filterMap (fun i => xs.get? i.toNat)).length = l.length := by
  induction l with
  | nil => simp
  | cons i l ih =>
    have hi := h i (List.mem_cons_self i l)
    have hlt : i.toNat < xs.length := by omega
    rw [List.filterMap_cons, List.get?_eq_get hlt]
    simp only [List.length_cons]
    rw [ih (fun j hj => h j (List.mem_cons_of_mem _ hj))]

/-- The length of a Python list slice is the length of the range of the
corresponding slice.indices, for a nonzero step. -/
theorem listSlice_length {α : Type} (xs : List α) (a b c : Option Int)
    (hc : c.getD 1 ≠ 0) :
    (listSlice xs a b c).length = pySliceLen a b c xs.length := by
  rcases hsi : sliceIndices a b c xs.length with ⟨s, e, st⟩
  have hb := mem_rangeList_of_sliceIndices a b c xs.length hc s e st hsi
  simp only [listSlice, pySliceLen, hsi]
  rw [length_filterMap_get xs _ hb]
  simp only [rangeList, List.length_map, List.length_range]

/-! ### Concrete fixtures

Small concrete directories and drives used by the witnesses below. -/

/-- A concrete stand-in for the external field-file reader: the decoded
array records the length of the file name. -/
def exDecode (s : String) : Field := ⟨[(s.length : Int)]⟩

/-- A concrete OOMMF time drive with five snapshots and five table rows. -/
def exDriveA : Drive :=
  { number := 0, backend := .oommf, x := "t",
    infoFile := some (some ⟨"TimeDriver", 0⟩),
    tableColumns := ["t", "mx"],
    tableRows := [[0, 0], [1, 1], [2, 2], [3, 3], [4, 4]],
    step_files := ["a0.omf", "a1.omf", "a2.omf", "a3.omf", "a4.omf"],
    m0Path := "a/m0.omf", decode := exDecode, callbacks := [],
    use_cache := false }

/-- A second concrete OOMMF time drive, compatible with `exDriveA`,
with three snapshots and three table rows. -/
def exDriveB : Drive :=
  { number := 1, backend := .oommf, x := "t",
    infoFile := some (some ⟨"TimeDriver", 1⟩),
    tableColumns := ["t", "mx"],
    tableRows := [[5, 5], [6, 6], [7, 7]],
    step_files := ["b0.omf", "b1.omf", "b2.omf"],
    m0Path := "b/m0.omf", decode := exDecode, callbacks := [],
    use_cache := false }

/-- A concrete minimisation drive whose independent variable differs
from that of `exDriveA`. -/
def exDriveMin : Drive :=
  { number := 2, backend := .oommf, x := "iteration",
    infoFile := some (some ⟨"MinDriver", 2⟩),
    tableColumns := ["iteration", "mx"],
    tableRows := [[0, 0]],
    step_files := ["c0.omf"],
    m0Path := "c/m0.omf", decode := exDecode, callbacks := [],
    use_cache := false }

/-- A concrete drive from an interrupted run: three snapshot files on
disk but only two rows in the scalar table. -/
def exDriveGap : Drive :=
  { number := 3, backend := .oommf, x := "t",
    infoFile := some (some ⟨"TimeDriver", 3⟩),
    tableColumns := ["t", "mx"],
    tableRows := [[0, 0], [1, 1]],
    step_files := ["g0.omf", "g1.omf", "g2.omf"],
    m0Path := "g/m0.omf", decode := exDecode, callbacks := [],
    use_cache := false }

/-- A concrete combined drive over the two compatible example drives. -/
def exCombined : CombinedDrive :=
  ⟨[exDriveA, exDriveB], ⟨"t", ["t", "mx"], []⟩, "t"⟩

/-! ### Claim theorems -/

/-- C3: slicing a drive with the slice a:b:c yields a derived drive
whose snapshot count and table row count both equal
len(range(slice(a, b, c).indices(d.n))), with caching forced on — for
any drive whose snapshot-file count agrees with its table row count
(the two lists are sliced against their own lengths) and any nonzero
step (Python rejects a zero step when the slice literal is formed). -/
theorem slice_drive_counts (d : Drive) (a b c : Option Int)
    (hc : c.getD 1 ≠ 0)
    (hlen : d.step_files.length = d.tableRows.length) :
    (sliceDrive d a b c).step_files.length = pySliceLen a b c (driveN d) ∧
    (sliceDrive d a b c).tableRows.length = pySliceLen a b c (driveN d) ∧
    (sliceDrive d a b c).use_cache = true := by
  refine ⟨?_, ?_, rfl⟩
  · show (listSlice d.step_files a b c).length = _
    rw [listSlice_length d.step_files a b c hc, hlen]
    rfl
  · exact listSlice_length d.tableRows a b c hc

/-- Witness for C3 at a concrete drive and the slice 1:5:2 of a
five-step drive: the derived drive has ceil(4 / 2) = 2 snapshots, 2
table rows, and caching on. -/
theorem slice_drive_counts_witness :
    ((some 2 : Option Int).getD 1 ≠ 0 ∧
      exDriveA.step_files.length = exDriveA.tableRows.length) ∧
    ((sliceDrive exDriveA (some 1) (some 5) (some 2)).step_files.length =
        pySliceLen (some 1) (some 5) (some 2) (driveN exDriveA) ∧
      (sliceDrive exDriveA (some 1) (some 5) (some 2)).tableRows.length =
        pySliceLen (some 1) (some 5) (some 2) (driveN exDriveA) ∧
      (sliceDrive exDriveA (some 1) (some 5) (some 2)).use_cache = true) :=
  ⟨⟨by decide, rfl⟩,
    slice_drive_counts exDriveA (some 1) (some 5) (some 2) (by decide) rfl⟩

/-- C4: iterating a drive yields exactly as many decoded snapshots as
there are snapshot files — also when that count differs from the table
row count — and the i-th item of the (finite) iteration is the i-th
indexed access, that is, the items come in file order.  Re-iteration is
the same pure list, so the iteration is restartable. -/
theorem iterate_count_is_file_count (d : Drive) :
    (driveIterate d).length = d.step_files.length ∧
    (d.tableRows.length ≠ d.step_files.length →
      (driveIterate d).length = d.step_files.length) ∧
    (∀ i, i < d.step_files.length →
      (driveIterate d).get? i = some (driveGetItemInt d i)) := by
  refine ⟨?_, fun _ => ?_, ?_⟩
  · simp [driveIterate]
  · simp [driveIterate]
  · intro i hi
    rw [driveIterate, List.get?_eq_getElem?, List.getElem?_map,
      List.getElem?_range hi]
    rfl

/-- Witness for C4 at a drive with three snapshot files but only two
table rows: iteration still yields three items. -/
theorem iterate_count_is_file_count_witness :
    (exDriveGap.tableRows.length ≠ exDriveGap.step_files.length ∧
      2 < exDriveGap.step_files.length) ∧
    ((driveIterate exDriveGap).length = exDriveGap.step_files.length ∧
      (driveIterate exDriveGap).get? 2 = some (driveGetItemInt exDriveGap 2)) :=
  ⟨⟨by decide, by decide⟩,
    (iterate_count_is_file_count exDriveGap).2.1 (by decide),
    (iterate_count_is_file_count exDriveGap).2.2 2 (by decide)⟩

/-- Applying a callback chain extended by two callbacks equals applying
the original chain and then the two new callbacks in order. -/
theorem applyCallbacks_append_two (cs : List (Field → Field))
    (f g : Field → Field) (m : Field) :
    applyCallbacks ((cs ++ [f]) ++ [g]) m = g (f (applyCallbacks cs m)) := by
  simp [applyCallbacks, List.foldl_append]

/-- C5: register_callback returns a new drive instance with the
callback appended to the callback list (the embedding is immutable, so
the original drive is untouched by construction), and indexed snapshot
access on the twice-extended drive equals the manual composition of the
two callbacks applied to the original drive's snapshot — in
registration order, each callback receiving the previous one's
output. -/
theorem register_callback_composes (d : Drive) (f g : Field → Field) (i : Nat) :
    (registerCallback d f).callbacks = d.callbacks ++ [f] ∧
    d.callbacks = d.callbacks ∧
    driveGetItemInt (registerCallback (registerCallback d f) g) i =
      (driveGetItemInt d i).map (fun m => g (f m)) := by
  refine ⟨rfl, rfl, ?_⟩
  simp only [registerCallback, driveGetItemInt]
  cases d.step_files.get? i with
  | none => rfl
  | some fn =>
      simp only [Except.map]
      rw [applyCallbacks_append_two]

/-- C10: both the initial-magnetisation path and the driver kind
reported by a combined drive's info are taken from the first member
drive alone: they are invariant under arbitrary changes of the other
members (and of the stored table and variable), so the other members'
m0 files and driver kinds are never consulted. -/
theorem combined_first_member_m0_info (d0 : Drive) (rest rest2 : List Drive)
    (t t2 : Table) (x x2 : String) :
    combinedM0Path ⟨d0 :: rest, t, x⟩ = .ok d0.m0Path ∧
    combinedM0Path ⟨d0 :: rest, t, x⟩ = combinedM0Path ⟨d0 :: rest2, t2, x2⟩ ∧
    combinedInfoDriver ⟨d0 :: rest, t, x⟩ = (driveInfo d0).map Info.driver ∧
    combinedInfoDriver ⟨d0 :: rest, t, x⟩ =
      combinedInfoDriver ⟨d0 :: rest2, t2, x2⟩ :=
  ⟨rfl, rfl, rfl, rfl⟩

/-- C1: concatenating two drives with the same independent variable
yields a combined drive whose step count (number of table rows) is
exactly the sum of the operands' step counts, and whose snapshot-file
list is the operands' lists concatenated; with differing independent
variables the operation is a value error; with a right operand that is
neither a drive nor a combined drive it is a type error (also for the
operator of an existing combined drive). -/
theorem lshift_concatenation (d1 d2 : Drive) (k : Int) (s : String)
    (c : CombinedDrive) :
    (d1.x = d2.x →
      ∃ cd, driveLshift d1 (.drive d2) = .ok cd ∧
        combinedN cd = driveN d1 + driveN d2 ∧
        cd.tbl.rows.length = driveN d1 + driveN d2 ∧
        combinedStepFiles cd = d1.step_files ++ d2.step_files) ∧
    (¬ d1.x = d2.x → driveLshift d1 (.drive d2) = .error .valueError) ∧
    driveLshift d1 (.intObj k) = .error .typeError ∧
    combinedLshift c (.strObj s) = .error .typeError := by
  refine ⟨fun hx => ?_, fun hx => ?_, rfl, rfl⟩
  · have htab : Table.lshift (driveTable d1) (driveTable d2) =
        .ok ⟨d1.x, d1.tableColumns, d1.tableRows ++ d2.tableRows⟩ := by
      simp [Table.lshift, driveTable, hx]
    refine ⟨⟨[d1, d2], ⟨d1.x, d1.tableColumns, d1.tableRows ++ d2.tableRows⟩,
      d1.x⟩, ?_, ?_, ?_, ?_⟩
    · show combinedDriveInit [d1, d2] = _
      unfold combinedDriveInit tablesLshift
      simp [List.foldlM, htab]
    · simp [combinedN, driveN]
    · simp [driveN]
    · simp [combinedStepFiles]
  · have htab : Table.lshift (driveTable d1) (driveTable d2) =
        .error .valueError := by
      simp [Table.lshift, driveTable, hx]
    show combinedDriveInit [d1, d2] = _
    unfold combinedDriveInit tablesLshift
    simp [List.foldlM, htab]

/-- Witness for C1: concatenating the 5-step and the 3-step compatible
example drives succeeds with 8 steps; concatenating the time drive with
the minimisation drive is a value error; concatenating with an integer
is a type error. -/
theorem lshift_concatenation_witness :
    (exDriveA.x = exDriveB.x ∧
      ∃ cd, driveLshift exDriveA (.drive exDriveB) = .ok cd ∧
        combinedN cd = driveN exDriveA + driveN exDriveB ∧
        cd.tbl.rows.length = driveN exDriveA + driveN exDriveB ∧
        combinedStepFiles cd = exDriveA.step_files ++ exDriveB.step_files) ∧
    (¬ exDriveA.x = exDriveMin.x ∧
      driveLshift exDriveA (.drive exDriveMin) = .error .valueError) ∧
    driveLshift exDriveA (.intObj 1) = .error .typeError ∧
    combinedLshift exCombined (.strObj "zz") = .error .typeError :=
  ⟨⟨rfl, (lshift_concatenation exDriveA exDriveB 1 "zz" exCombined).1 rfl⟩,
    ⟨by decide,
      (lshift_concatenation exDriveA exDriveMin 1 "zz" exCombined).2.1
        (by decide)⟩,
    (lshift_concatenation exDriveA exDriveB 1 "zz" exCombined).2.2.1,
    (lshift_concatenation exDriveA exDriveB 1 "zz" exCombined).2.2.2⟩

/-- C2: whenever a drive is successfully constructed, its backend is
the mumax3 variant exactly when the `<system-name>.out` sub-directory
is present (and the OOMMF variant otherwise), and the backend of the
constructed object is never changed by the operations that derive new
drive instances (callback registration and slicing). -/
theorem backend_dispatch_fixed (num : Nat) (dir : DriveDir) (x : Option String)
    (d : Drive) (h : constructDrive num dir x = .ok d) :
    (d.backend = .mumax3 ↔ dir.outFiles.isSome = true) ∧
    (d.backend = .oommf ↔ dir.outFiles = none) ∧
    (∀ f, (registerCallback d f).backend = d.backend) ∧
    (∀ a b c, (sliceDrive d a b c).backend = d.backend) := by
  have hb : d.backend =
      (if dir.outFiles.isSome then Backend.mumax3 else Backend.oommf) := by
    cases hp : dir.present with
    | false => rw [constructDrive, hp] at h; simp at h
    | true =>
      rw [constructDrive, hp] at h
      cases ho : dir.outFiles with
      | none =>
        rw [ho] at h
        cases hr : resolveX .oommf dir x with
        | error e => simp [hr] at h
        | ok xv =>
          simp [hr] at h
          subst h
          simp [ho]
      | some fs =>
        rw [ho] at h
        cases hr : resolveX .mumax3 dir x with
        | error e => simp [hr] at h
        | ok xv =>
          simp [hr] at h
          subst h
          simp [ho]
  refine ⟨?_, ?_, fun f => rfl, fun a b c => rfl⟩
  · rw [hb]; cases dir.outFiles <;> simp
  · rw [hb]; cases dir.outFiles <;> simp

/-- A concrete mumax3 drive directory whose metadata declares the
minimisation driver. -/
def exMumaxDir : DriveDir :=
  { present := true, outFiles := some ["m000.ovf", "m001.ovf"],
    omfFiles := [], infoFile := some (some ⟨"MinDriver", 4⟩),
    tableColumns := ["t", "mx"], tableRows := [[0, 0], [1, 1]],
    m0File := "m/m0.omf", decode := exDecode }

/-- The drive constructed from `exMumaxDir`. -/
def exMumaxDrive : Drive :=
  { number := 4, backend := .mumax3, x := "t",
    infoFile := some (some ⟨"MinDriver", 4⟩), tableColumns := ["t", "mx"],
    tableRows := [[0, 0], [1, 1]], step_files := ["m000.ovf", "m001.ovf"],
    m0Path := "m/m0.omf", decode := exDecode, callbacks := [],
    use_cache := false }

/-- Witness for C2 at the concrete mumax3 directory: construction
succeeds, the backend is mumax3 because the output sub-directory is
present, and slicing keeps the backend. -/
theorem backend_dispatch_fixed_witness :
    constructDrive 4 exMumaxDir none = .ok exMumaxDrive ∧
    (exMumaxDrive.backend = .mumax3 ↔ exMumaxDir.outFiles.isSome = true) ∧
    (sliceDrive exMumaxDrive none none none).backend = exMumaxDrive.backend :=
  ⟨rfl, (backend_dispatch_fixed 4 exMumaxDir none exMumaxDrive rfl).1,
    (backend_dispatch_fixed 4 exMumaxDir none exMumaxDrive rfl).2.2.2
      none none none⟩

/-- Counterexample for C7: a mumax3 drive whose metadata declares the
minimisation driver gets the time column t as its automatically
selected independent variable, not the iteration column the claim
promises for every minimisation drive. -/
theorem mumax3_min_driver_x_counterexample :
    readInfoFile exMumaxDir = .ok ⟨"MinDriver", 4⟩ ∧
    (constructDrive 4 exMumaxDir none).map Drive.x = .ok "t" ∧
    ¬ (constructDrive 4 exMumaxDir none).map Drive.x = .ok "iteration" := by
  refine ⟨rfl, rfl, fun h => ?_⟩
  rw [show (constructDrive 4 exMumaxDir none).map Drive.x = .ok "t" from rfl]
    at h
  exact absurd (Except.ok.inj h) (by decide)

/-- C7 (amended): for the OOMMF backend, the automatically selected
independent variable follows the metadata's driver kind (time-driver:
t; minimisation-driver: iteration; hysteresis-driver: B_hysteresis);
for the mumax3 backend the automatic selection is always the time
column t, regardless of the driver kind; for both backends a user
override is accepted exactly when it names an existing table column and
is a value error otherwise. -/
theorem x_selection_amended :
    (∀ (dir : DriveDir) (info : Info), readInfoFile dir = .ok info →
      ((info.driver = "TimeDriver" →
          resolveX .oommf dir none = .ok "t") ∧
        (info.driver = "MinDriver" →
          resolveX .oommf dir none = .ok "iteration") ∧
        (info.driver = "HysteresisDriver" →
          resolveX .oommf dir none = .ok "B_hysteresis"))) ∧
    (∀ dir : DriveDir, resolveX .mumax3 dir none = .ok "t") ∧
    (∀ (b : Backend) (dir : DriveDir) (v : String),
      v ∈ dir.tableColumns → resolveX b dir (some v) = .ok v) ∧
    (∀ (b : Backend) (dir : DriveDir) (v : String),
      v ∉ dir.tableColumns →
        resolveX b dir (some v) = .error .valueError) := by
  refine ⟨fun dir info hinfo => ⟨fun hd => ?_, fun hd => ?_, fun hd => ?_⟩,
    fun dir => rfl, fun b dir v hv => ?_, fun b dir v hv => ?_⟩
  · simp [resolveX, hinfo, oommfAutoX, hd]
  · simp [resolveX, hinfo, oommfAutoX, hd]
  · simp [resolveX, hinfo, oommfAutoX, hd]
  · cases b <;> simp [resolveX, hv]
  · cases b <;> simp [resolveX, hv]

/-- A concrete OOMMF drive directory whose metadata declares the
minimisation driver. -/
def exOommfMinDir : DriveDir :=
  { present := true, outFiles := none,
    omfFiles := ["o0.omf"], infoFile := some (some ⟨"MinDriver", 6⟩),
    tableColumns := ["iteration", "mx"], tableRows := [[0, 0]],
    m0File := "o/m0.omf", decode := exDecode }

/-- Witness for the amended C7 at concrete directories: the OOMMF
minimisation drive gets the iteration column, the mumax3 minimisation
drive gets t, a valid override is accepted and an invalid one is a
value error. -/
theorem x_selection_amended_witness :
    (readInfoFile exOommfMinDir = .ok ⟨"MinDriver", 6⟩ ∧
      resolveX .oommf exOommfMinDir none = .ok "iteration") ∧
    resolveX .mumax3 exMumaxDir none = .ok "t" ∧
    ("mx" ∈ exOommfMinDir.tableColumns ∧
      resolveX .oommf exOommfMinDir (some "mx") = .ok "mx") ∧
    ("wrong" ∉ exOommfMinDir.tableColumns ∧
      resolveX .oommf exOommfMinDir (some "wrong") = .error .valueError) :=
  ⟨⟨rfl, (x_selection_amended.1 exOommfMinDir ⟨"MinDriver", 6⟩ rfl).2.1 rfl⟩,
    x_selection_amended.2.1 exMumaxDir,
    ⟨by decide, x_selection_amended.2.2.1 .oommf exOommfMinDir "mx"
      (by decide)⟩,
    ⟨by decide, x_selection_amended.2.2.2 .oommf exOommfMinDir "wrong"
      (by decide)⟩⟩

/-- C9: for every valid index i of a run collection with n drives,
run[i] and run[i - n] (that is, run[-(n - i)]) resolve through range(n)
to the same drive number i and construct the same drive; an index at or
beyond n, or below -n, is an index error; a nonexistent root path fails
at construction time of the collection. -/
theorem data_indexing (root : DataRoot) (i : Nat) (j : Int) :
    (i < dataN root →
      rangeIndex (dataN root) i = .ok i ∧
      rangeIndex (dataN root) ((i : Int) - (dataN root : Int)) = .ok i ∧
      dataGetItem root i = dataGetItem root ((i : Int) - (dataN root : Int))) ∧
    ((dataN root : Int) ≤ j → dataGetItem root j = .error .indexError) ∧
    (j < -(dataN root : Int) → dataGetItem root j = .error .indexError) ∧
    (root.present = false → constructData root = .error .ioError) := by
  refine ⟨fun hi => ?_, fun hj => ?_, fun hj => ?_, fun hp => ?_⟩
  · have h1 : rangeIndex (dataN root) i = .ok i := by
      simp only [rangeIndex]
      rw [if_neg (show ¬ ((i : Int) < 0) by omega)]
      rw [if_pos (show (0 : Int) ≤ i ∧ (i : Int) < dataN root by
        constructor <;> omega)]
      congr 1
    have h2 : rangeIndex (dataN root) ((i : Int) - (dataN root : Int)) =
        .ok i := by
      simp only [rangeIndex]
      rw [if_pos (show (i : Int) - (dataN root : Int) < 0 by omega)]
      rw [if_pos (show (0 : Int) ≤ (i : Int) - (dataN root : Int) +
          (dataN root : Int) ∧
          (i : Int) - (dataN root : Int) + (dataN root : Int) <
            (dataN root : Int) by constructor <;> omega)]
      congr 1
      omega
    refine ⟨h1, h2, ?_⟩
    unfold dataGetItem
    rw [h1, h2]
  · have hr : rangeIndex (dataN root) j = .error .indexError := by
      simp only [rangeIndex]
      rw [if_neg (show ¬ (j < 0) by omega)]
      rw [if_neg (show ¬ ((0 : Int) ≤ j ∧ j < (dataN root : Int)) by omega)]
    unfold dataGetItem
    rw [hr]
  · have hr : rangeIndex (dataN root) j = .error .indexError := by
      simp only [rangeIndex]
      rw [if_pos (show j < 0 by omega)]
      rw [if_neg (show ¬ ((0 : Int) ≤ j + (dataN root : Int) ∧
        j + (dataN root : Int) < (dataN root : Int)) by omega)]
    unfold dataGetItem
    rw [hr]
  · unfold constructData
    rw [hp]
    rfl

/-- A concrete run collection with two drive directories. -/
def exRoot : DataRoot := ⟨true, [exOommfMinDir, exMumaxDir]⟩

/-- A nonexistent run-collection root. -/
def exRootAbsent : DataRoot := ⟨false, []⟩

/-- Witness for C9 at a two-drive collection: index 1 and index -1
resolve to the same drive, indices 5 and -3 are index errors, and the
absent root fails at construction. -/
theorem data_indexing_witness :
    (1 < dataN exRoot ∧
      rangeIndex (dataN exRoot) 1 = .ok 1 ∧
      dataGetItem exRoot 1 =
        dataGetItem exRoot ((1 : Int) - (dataN exRoot : Int))) ∧
    ((dataN exRoot : Int) ≤ 5 ∧ dataGetItem exRoot 5 = .error .indexError) ∧
    ((-3 : Int) < -(dataN exRoot : Int) ∧
      dataGetItem exRoot (-3) = .error .indexError) ∧
    (exRootAbsent.present = false ∧
      constructData exRootAbsent = .error .ioError) :=
  ⟨⟨by decide, ((data_indexing exRoot 1 5).1 (by decide)).1,
      ((data_indexing exRoot 1 5).1 (by decide)).2.2⟩,
    ⟨by decide, (data_indexing exRoot 1 5).2.1 (by decide)⟩,
    ⟨by decide, (data_indexing exRoot 1 (-3)).2.2.1 (by decide)⟩,
    ⟨rfl, (data_indexing exRootAbsent 0 0).2.2.2 rfl⟩⟩

/-- A drive directory whose info.json is absent. -/
def exDirMissingInfo : DriveDir :=
  { present := true, outFiles := none, omfFiles := ["w0.omf"],
    infoFile := none, tableColumns := ["t"], tableRows := [[0]],
    m0File := "w/m0.omf", decode := exDecode }

/-- A drive directory whose info.json exists but cannot be parsed. -/
def exDirCorruptInfo : DriveDir :=
  { present := true, outFiles := none, omfFiles := ["v0.omf"],
    infoFile := some none, tableColumns := ["t"], tableRows := [[0]],
    m0File := "v/m0.omf", decode := exDecode }

/-- A well-formed drive directory. -/
def exDirGoodInfo : DriveDir :=
  { present := true, outFiles := none, omfFiles := ["u0.omf"],
    infoFile := some (some ⟨"TimeDriver", 2⟩), tableColumns := ["t"],
    tableRows := [[0]], m0File := "u/m0.omf", decode := exDecode }

/-- The three-drive run collection of the C6 scenario. -/
def exInfoRoot : DataRoot :=
  ⟨true, [exDirMissingInfo, exDirCorruptInfo, exDirGoodInfo]⟩

/-- C6: over the run collection holding one drive with a missing
metadata file, one with a malformed one and one well-formed drive, the
aggregate listing returns (it does not raise) the per-item statuses
"missing", "corrupt" and "available" in order; in general a
file-not-found or JSON decode error of an item is downgraded to exactly
such a status record; and the non-aggregate metadata accessor
propagates the very same errors unchanged on the same directories. -/
theorem data_info_statuses :
    dataInfo exInfoRoot =
      .ok [⟨0, "missing"⟩, ⟨1, "corrupt"⟩, ⟨2, "available"⟩] ∧
    (∀ (i : Nat) (dir : DriveDir),
      (dataInfoTry i dir = .error .fileNotFound →
        dataInfoItem i dir = .ok ⟨i, "missing"⟩) ∧
      (dataInfoTry i dir = .error .jsonDecode →
        dataInfoItem i dir = .ok ⟨i, "corrupt"⟩)) ∧
    readInfoFile exDirMissingInfo = .error .fileNotFound ∧
    readInfoFile exDirCorruptInfo = .error .jsonDecode := by
  refine ⟨?_, fun i dir => ⟨fun h => ?_, fun h => ?_⟩, rfl, rfl⟩
  · rfl
  · unfold dataInfoItem
    rw [h]
  · unfold dataInfoItem
    rw [h]

/-- Witness for the general downgrade part of C6 at the concrete
missing-metadata and corrupt-metadata directories. -/
theorem data_info_statuses_witness :
    (dataInfoTry 0 exDirMissingInfo = .error .fileNotFound ∧
      dataInfoItem 0 exDirMissingInfo = .ok ⟨0, "missing"⟩) ∧
    (dataInfoTry 1 exDirCorruptInfo = .error .jsonDecode ∧
      dataInfoItem 1 exDirCorruptInfo = .ok ⟨1, "corrupt"⟩) :=
  ⟨⟨rfl, (data_info_statuses.2.1 0 exDirMissingInfo).1 rfl⟩,
    ⟨rfl, (data_info_statuses.2.1 1 exDirCorruptInfo).2 rfl⟩⟩

/-- C8: for a drive with exactly one snapshot file, the xarray export
carries the same data as decoding that single snapshot directly, and
the same dimensions — in particular no extra leading axis for the
independent variable. -/
theorem to_xarray_single_snapshot (d : Drive) (hn : d.step_files.length = 1)
    (da : DataArray) (hda : driveToXarray d = .ok da) :
    ∃ f, driveGetItemInt d 0 = .ok f ∧
      da.data = (fieldToXarray f).data ∧
      da.dims = (fieldToXarray f).dims := by
  unfold driveToXarray at hda
  rw [if_pos hn] at hda
  cases hg : driveGetItemInt d 0 with
  | error e =>
    rw [hg] at hda
    dsimp only at hda
    simp at hda
  | ok f =>
    rw [hg] at hda
    cases hinfo : driveInfo d with
    | error e =>
      rw [hinfo] at hda
      dsimp only at hda
      simp at hda
    | ok info =>
      rw [hinfo] at hda
      dsimp only at hda
      refine ⟨f, rfl, ?_, ?_⟩
      · rw [← Except.ok.inj hda]
        rfl
      · rw [← Except.ok.inj hda]
        rfl

/-- A concrete single-snapshot drive. -/
def exDriveSingle : Drive :=
  { number := 5, backend := .oommf, x := "t",
    infoFile := some (some ⟨"TimeDriver", 5⟩), tableColumns := ["t", "mx"],
    tableRows := [[0, 0]], step_files := ["s0.omf"],
    m0Path := "s/m0.omf", decode := exDecode, callbacks := [],
    use_cache := false }

/-- The xarray export of the concrete single-snapshot drive. -/
def exDASingle : DataArray :=
  ⟨[6], ["x", "y", "z", "vdims"],
    [("driver", "TimeDriver"), ("drive_number", "5")]⟩

/-- Witness for C8 at the concrete single-snapshot drive. -/
theorem to_xarray_single_snapshot_witness :
    (exDriveSingle.step_files.length = 1 ∧
      driveToXarray exDriveSingle = .ok exDASingle) ∧
    (∃ f, driveGetItemInt exDriveSingle 0 = .ok f ∧
      exDASingle.data = (fieldToXarray f).data ∧
      exDASingle.dims = (fieldToXarray f).dims) :=
  ⟨⟨rfl, rfl⟩, to_xarray_single_snapshot exDriveSingle rfl exDASingle rfl⟩

end Mmd
